import Mathlib

/-!
Shallow embedding of the EvalAI grading engine (backend/app): the similarity
scorer, rubric scorer, concept matcher, batch service, assessment service and
paper grader, together with theorems settling the specification claims.

Texts are modelled as `String`; the external sentence-embedding model is
abstracted as a raw cosine-similarity oracle `sim : String → String → ℚ`
(the cosine similarity of the encodings of two texts).  Real arithmetic is
modelled over `ℚ`; the Python `int()` truncation and the Python `round()`
(ties to even) are modelled explicitly.  Python string operations (`strip`,
`split`, membership) are re-implemented character by character so that every
definition evaluates inside the kernel.
-/

namespace EvalAI

/-! ### Python string and numeric primitives -/

/-- Whitespace characters recognised by the Python `strip` and `split`. -/
def pyIsSpace (c : Char) : Bool :=
  c = ' ' || c = '\t' || c = '\n' || c = '\r' || c = '\x0b' || c = '\x0c'

/-- One step of splitting a character list at separator characters. -/
def splitStep (sep : Char → Bool) (c : Char) (acc : List (List Char)) :
    List (List Char) :=
  match acc with
  | [] => [[c]]
  | h :: t => if sep c then [] :: h :: t else (c :: h) :: t

/-- Split a character list at every character satisfying `sep`, keeping empty
pieces (the behaviour of the Python `str.split` with an explicit separator). -/
def splitOnPred (sep : Char → Bool) (l : List Char) : List (List Char) :=
  l.foldr (splitStep sep) [[]]

/-- The Python `s.split(sep)` for a one-character separator. -/
def pySplitOn (sep : Char) (s : String) : List String :=
  (splitOnPred (fun c => c = sep) s.toList).map (fun cs => String.mk cs)

/-- The Python `s.strip()`: remove leading and trailing whitespace. -/
def pyStrip (s : String) : String :=
  String.mk (((s.toList.dropWhile pyIsSpace).reverse.dropWhile pyIsSpace).reverse)

/-- The Python `s.split()` with no argument: split at whitespace runs and drop
empty pieces. -/
def pyWords (s : String) : List String :=
  ((splitOnPred pyIsSpace s.toList).filter (fun w => w ≠ [])).map (fun cs => String.mk cs)

/-- The number of whitespace-separated words, `len(s.split())`. -/
def wordCount (s : String) : ℕ := (pyWords s).length

/-- Clamp a rational to `[0, 1]`, that is `max(0.0, min(1.0, x))`. -/
def clamp01 (q : ℚ) : ℚ := max 0 (min 1 q)

/-- The Python `int()` applied to a real value: truncation toward zero. -/
def pyInt (q : ℚ) : ℤ := if 0 ≤ q then ⌊q⌋ else ⌈q⌉

/-- The Python `round()` to the nearest integer, ties to even. -/
def pyRoundInt (q : ℚ) : ℤ :=
  if q - ⌊q⌋ < 1/2 then ⌊q⌋
  else if 1/2 < q - ⌊q⌋ then ⌊q⌋ + 1
  else if ⌊q⌋ % 2 = 0 then ⌊q⌋ else ⌊q⌋ + 1

/-- The Python `round(q, nd)` to `nd` decimal digits, ties to even. -/
def pyRound (q : ℚ) (nd : ℕ) : ℚ := (pyRoundInt (q * 10 ^ nd) : ℚ) / 10 ^ nd

/-- The Python `dict.get(k, default)` over a dict built by inserting key-value
pairs in list order (later writes win, as in a dict comprehension). -/
def pyDictGet (kvs : List (ℤ × String)) (k : ℤ) (default : String) : String :=
  match kvs.reverse.find? (fun p => p.1 = k) with
  | some p => p.2
  | none => default

/-! ### `app/scorer.py` -/

/-- Embeds `compute_similarity`: cosine similarity of two encodings, clamped
to `[0, 1]`.  The raw cosine similarity is supplied by the oracle `sim`. -/
def compute_similarity (sim : String → String → ℚ) (a b : String) : ℚ :=
  clamp01 (sim a b)

/-- Embeds `map_similarity_to_score`: fixed similarity bands mapped against
`max_score`; the two middle bands apply the Python `int()` (truncation). -/
def map_similarity_to_score (similarity : ℚ) (max_score : ℤ) : ℤ :=
  if similarity ≥ 4/5 then max_score
  else if similarity ≥ 3/5 then pyInt (7/10 * (max_score : ℚ))
  else if similarity ≥ 2/5 then pyInt (2/5 * (max_score : ℚ))
  else 0

/-- Embeds `generate_feedback`: template string selected by the same
similarity bands. -/
def generate_feedback (similarity : ℚ) : String :=
  if similarity ≥ 4/5 then
    ("Excellent answer. High semantic similarity to the model answer.")
  else if similarity ≥ 3/5 then
    ("Good answer, but missing some important concepts.")
  else if similarity ≥ 2/5 then
    ("Fair attempt, but the answer lacks clarity and key ideas.")
  else
    ("Poor answer. The response is semantically different from the expected answer.")

/-- A dynamically-typed Python value, as far as the assessment service needs:
tuples and string-keyed dicts of numbers, integers and strings. -/
inductive PyVal where
  | num : ℚ → PyVal
  | int : ℤ → PyVal
  | str : String → PyVal
  | tup : List PyVal → PyVal
  | dict : List (String × PyVal) → PyVal

/-- The Python subscription `v[k]` with a string key `k`: succeeds on a dict
holding the key, raises a `TypeError` on a tuple, a `KeyError` on a missing
key. -/
def pySubscript : PyVal → String → Except String PyVal
  | .dict kvs, k =>
      match kvs.reverse.find? (fun p => p.1 = k) with
      | some p => .ok p.2
      | none => .error ("KeyError: " ++ k)
  | .tup _, _ => .error ("TypeError: tuple indices must be integers or slices, not str")
  | _, _ => .error ("TypeError: value is not subscriptable by str")

/-- Embeds `assess_answer`: encodes both texts, computes the clamped
similarity and the mapped score, and returns them as the Python tuple
`(similarity, score)`. -/
def assess_answer (sim : String → String → ℚ)
    (student_answer model_answer : String) (max_score : ℤ) : PyVal :=
  let similarity := compute_similarity sim student_answer model_answer
  .tup [.num similarity, .int (map_similarity_to_score similarity max_score)]

/-! ### `app/services/assessment_service.py` -/

/-- Embeds `assess_single_answer`: builds the response dict from the result of
`assess_answer` by string subscription (`result[...]` with the keys
`similarity`, `score` and `feedback`). -/
def assess_single_answer (sim : String → String → ℚ)
    (model_answer student_answer : String) (max_score : ℤ) :
    Except String (ℚ × ℤ × String) := do
  let result := assess_answer sim student_answer model_answer max_score
  let s ← pySubscript result ("similarity")
  let a ← pySubscript result ("score")
  let f ← pySubscript result ("feedback")
  match s, a, f with
  | .num sq, .int ai, .str fs => .ok (pyRound sq 3, ai, fs)
  | _, _, _ => .error ("TypeError: unexpected field types")

/-- Embeds `assess_with_vectors`: assessment from a (pre-encoded) model text
and a student text; returns the similarity, awarded score and feedback
fields. -/
def assess_with_vectors (sim : String → String → ℚ)
    (model_answer student_answer : String) (max_score : ℤ) : ℚ × ℤ × String :=
  let similarity := compute_similarity sim model_answer student_answer
  (pyRound similarity 3, map_similarity_to_score similarity max_score,
    generate_feedback similarity)

/-- Embeds `validate_assessment_inputs`: returns `(is_valid, error_message)`. -/
def validate_assessment_inputs (model_answer student_answer : String)
    (max_score : ℤ) : Bool × String :=
  if pyStrip model_answer = "" then (false, "model_answer cannot be empty")
  else if pyStrip student_answer = "" then (false, "student_answer cannot be empty")
  else if max_score ≤ 0 then (false, "max_score must be positive")
  else (true, "")

/-! ### `app/enhanced_scorer.py` — concept matcher -/

/-- The sentence list of `extract_key_phrases` and of `score_clarity`:
split at periods, strip, keep the non-blank pieces. -/
def sentencesOf (text : String) : List String :=
  ((pySplitOn '.' text).map pyStrip).filter (fun s => s ≠ "")

/-- Comma-separated parts of one sentence, each stripped. -/
def commaParts (sent : String) : List String :=
  (pySplitOn ',' sent).map pyStrip

/-- Embeds `ConceptMatcher.extract_key_phrases`: per sentence, the whole
sentence when it has at most 15 words, then every comma-separated sub-phrase
with at least `min_words` words. -/
def extract_key_phrases (text : String) (min_words : ℕ := 2) : List String :=
  (sentencesOf text).foldr
    (fun sent rest =>
      ((if (pyWords sent).length ≤ 15 then [sent] else []) ++
        (commaParts sent).filter (fun phrase => min_words ≤ (pyWords phrase).length)) ++ rest)
    []

/-- Embeds `ConceptMatcher.identify_key_concepts`: first `top_n` phrases in
extraction order. -/
def identify_key_concepts (model_answer : String) (top_n : ℕ := 5) : List String :=
  let phrases := extract_key_phrases model_answer
  if phrases.length > top_n then phrases.take top_n else phrases

/-- One concept-match record: the `matched` flag, the best similarity and the
matched phrase (present only when matched). -/
structure MatchRes where
  matched : Bool
  score : ℚ
  matched_phrase : Option String
deriving DecidableEq

/-- One comparison step of the `np.argmax` scan: replace the running best
only on a strictly larger similarity (hence the first maximum is kept). -/
def bmStep (sim : String → String → ℚ) (concept : String) (acc : ℚ × String)
    (q : String) : ℚ × String :=
  if sim concept q > acc.1 then (sim concept q, q) else acc

/-- The `np.argmax` over one row of the similarity matrix followed by indexing
into the phrase list: the pair of the best similarity and the first phrase
attaining it. -/
def bestMatch (sim : String → String → ℚ) (concept : String) :
    List String → ℚ × String
  | [] => (0, "")
  | p :: ps => ps.foldl (bmStep sim concept) (sim concept p, p)

/-- The match record of one concept against a non-empty list of candidate
phrases, with the fixed threshold `0.65`. -/
def matchResultFor (sim : String → String → ℚ) (student_phrases : List String)
    (concept : String) : MatchRes :=
  let best := bestMatch sim concept student_phrases
  { matched := decide (best.1 ≥ 13/20)
    score := best.1
    matched_phrase := if best.1 ≥ 13/20 then some best.2 else none }

/-- Insertion into a Python dict kept as an ordered association list: a write
to an existing key replaces the value in place, a new key is appended. -/
def pyDictInsert (d : List (String × MatchRes)) (k : String) (v : MatchRes) :
    List (String × MatchRes) :=
  if k ∈ d.map Prod.fst then d.map (fun p => if p.1 = k then (k, v) else p)
  else d ++ [(k, v)]

/-- Embeds `ConceptMatcher.match_concepts`: empty concepts give an empty dict;
with no extracted candidate phrase every concept is unmatched with score `0`;
otherwise every concept is matched against its best candidate phrase. -/
def match_concepts (sim : String → String → ℚ) (key_concepts : List String)
    (student_answer : String) : List (String × MatchRes) :=
  if key_concepts = [] then []
  else
    let student_phrases := extract_key_phrases student_answer
    if student_phrases = [] then
      key_concepts.foldl (fun d c => pyDictInsert d c ⟨false, 0, none⟩) []
    else
      key_concepts.foldl
        (fun d c => pyDictInsert d c (matchResultFor sim student_phrases c)) []

/-! ### `app/enhanced_scorer.py` — rubric scorer -/

/-- The number of matched concepts in a match dict. -/
def matchedCount (ms : List (String × MatchRes)) : ℕ :=
  (ms.filter (fun p => p.2.matched)).length

/-- The completeness component, with every intermediate value. -/
structure CompletenessRes where
  score : ℚ
  length_frac : ℚ
  concept_coverage : ℚ
  concepts_found : ℕ
  total_concepts : ℕ
deriving DecidableEq

/-- Embeds `RubricScorer.score_completeness`: `0.3` times the length ratio
(called `length_frac` here) plus `0.7` times the concept coverage. -/
def score_completeness (sim : String → String → ℚ)
    (model_answer student_answer : String) : CompletenessRes :=
  let model_len := wordCount model_answer
  let student_len := wordCount student_answer
  let length_frac : ℚ :=
    if model_len > 0 then min ((student_len : ℚ) / (model_len : ℚ)) 1 else 0
  let key_concepts := identify_key_concepts model_answer
  let concept_matches := match_concepts sim key_concepts student_answer
  let matched_count := matchedCount concept_matches
  let concept_coverage : ℚ :=
    if key_concepts ≠ [] then (matched_count : ℚ) / (key_concepts.length : ℚ) else 0
  { score := length_frac * (3/10) + concept_coverage * (7/10)
    length_frac := length_frac
    concept_coverage := concept_coverage
    concepts_found := matched_count
    total_concepts := key_concepts.length }

/-- The accuracy component. -/
structure AccuracyRes where
  score : ℚ
  similarity : ℚ
deriving DecidableEq

/-- Embeds `RubricScorer.score_accuracy`: whole-answer cosine similarity
clamped to `[0, 1]`. -/
def score_accuracy (sim : String → String → ℚ)
    (model_answer student_answer : String) : AccuracyRes :=
  let similarity := sim model_answer student_answer
  { score := max 0 (min 1 similarity), similarity := similarity }

/-- The clarity component, with every intermediate value. -/
structure ClarityRes where
  score : ℚ
  avg_sentence_length : ℚ
  has_punct : Bool
  word_count : ℕ
deriving DecidableEq

/-- The punctuation check of `score_clarity` (the regex `[.!?,;:]`). -/
def hasPunct (s : String) : Bool :=
  s.toList.any (fun c => c ∈ ['.', '!', '?', ',', ';', ':'])

/-- Embeds `RubricScorer.score_clarity`: sentence-length score (floored at
`0.5`), punctuation score and length-adequacy score combined as
`0.4 / 0.3 / 0.3`. -/
def score_clarity (student_answer : String) : ClarityRes :=
  let sentences := (pySplitOn '.' student_answer).filter (fun s => pyStrip s ≠ "")
  let words := pyWords student_answer
  let avg_sent_len : ℚ :=
    if sentences ≠ [] then (words.length : ℚ) / (sentences.length : ℚ) else 0
  let sentence_score : ℚ :=
    if 10 ≤ avg_sent_len ∧ avg_sent_len ≤ 20 then 1
    else max (1/2) (1 - |avg_sent_len - 15| / 30)
  let punctuation_score : ℚ := if hasPunct student_answer then 1 else 1/2
  let length_score : ℚ := min ((words.length : ℚ) / 20) 1
  { score := sentence_score * (2/5) + punctuation_score * (3/10) + length_score * (3/10)
    avg_sentence_length := avg_sent_len
    has_punct := hasPunct student_answer
    word_count := words.length }

/-- Rubric weights for the three criteria. -/
structure RubricWeights where
  accuracy : ℚ
  completeness : ℚ
  clarity : ℚ
deriving DecidableEq

/-- The default weights: accuracy `0.5`, completeness `0.35`, clarity `0.15`. -/
def defaultWeights : RubricWeights := ⟨1/2, 7/20, 3/20⟩

/-- The full rubric result. -/
structure RubricResult where
  total_score : ℚ
  accuracy : AccuracyRes
  completeness : CompletenessRes
  clarity : ClarityRes
  rubric_weights : RubricWeights
deriving DecidableEq

/-- Embeds `RubricScorer.score_with_rubric`: the three components combined by
the supplied or default weights. -/
def score_with_rubric (sim : String → String → ℚ)
    (model_answer student_answer : String)
    (rubric_weights : Option RubricWeights) : RubricResult :=
  let w := rubric_weights.getD defaultWeights
  let accuracy := score_accuracy sim model_answer student_answer
  let completeness := score_completeness sim model_answer student_answer
  let clarity := score_clarity student_answer
  { total_score := accuracy.score * w.accuracy + completeness.score * w.completeness +
      clarity.score * w.clarity
    accuracy := accuracy
    completeness := completeness
    clarity := clarity
    rubric_weights := w }

/-! ### `app/enhanced_scorer.py` — feedback generator -/

/-- Structured feedback produced by `FeedbackGenerator.generate_detailed_feedback`. -/
structure DetailedFeedback where
  overall : String
  accuracy : String
  completeness : String
  clarity : String
  improvements : List String
  strengths : List String
deriving DecidableEq

/-- Embeds `FeedbackGenerator._identify_strengths`: list a named strength for
every sub-score at least `0.8`; when none qualifies, list the single best
criterion when it is at least `0.6` (the Python `max` keeps the first maximal
element in iteration order accuracy, completeness, clarity). -/
def identify_strengths (r : RubricResult) : List String :=
  let strengths :=
    (if r.accuracy.score ≥ 4/5 then ["Strong conceptual accuracy"] else []) ++
    (if r.completeness.score ≥ 4/5 then ["Comprehensive coverage of key points"] else []) ++
    (if r.clarity.score ≥ 4/5 then ["Clear and well-structured writing"] else [])
  if strengths = [] then
    let items : List (String × ℚ) :=
      [("accuracy", r.accuracy.score), ("completeness", r.completeness.score),
        ("clarity", r.clarity.score)]
    let best := (items.tail).foldl
      (fun acc q => if q.2 > acc.2 then q else acc) (items.headD ("", 0))
    if best.2 ≥ 3/5 then ["Good " ++ best.1] else []
  else strengths

/-- Embeds `FeedbackGenerator.generate_detailed_feedback`: banded template
strings for the total and each criterion, the improvement list and the
strength list. -/
def generate_detailed_feedback (sim : String → String → ℚ) (r : RubricResult)
    (model_answer student_answer : String) : DetailedFeedback :=
  let total := r.total_score
  let overall :=
    if total ≥ 9/10 then ("Excellent work! Your answer demonstrates comprehensive understanding.")
    else if total ≥ 4/5 then ("Very good! Your answer is strong with minor areas for improvement.")
    else if total ≥ 7/10 then ("Good effort! Your answer captures the main ideas but could be enhanced.")
    else if total ≥ 3/5 then ("Fair attempt. Your answer shows some understanding but misses key elements.")
    else ("Your answer needs significant improvement. Please review the material carefully.")
  let accuracy_score := r.accuracy.score
  let accuracy_fb :=
    if accuracy_score ≥ 17/20 then
      ("Your answer is semantically accurate and aligns well with the model answer.")
    else if accuracy_score ≥ 7/10 then
      ("Your answer is mostly accurate but contains some imprecise statements.")
    else ("Your answer has significant accuracy issues. Review the core concepts.")
  let completeness_score := r.completeness.score
  let counts := toString r.completeness.concepts_found ++ "/" ++
    toString r.completeness.total_concepts
  let completeness_fb :=
    if completeness_score ≥ 17/20 then
      ("Your answer is comprehensive, covering ") ++ counts ++ " key concepts."
    else if completeness_score ≥ 3/5 then
      ("Your answer covers ") ++ counts ++ " key concepts. Consider expanding on missing points."
    else ("Your answer is incomplete, covering only ") ++ counts ++ " key concepts. Add more detail."
  let clarity_score := r.clarity.score
  let word_count := r.clarity.word_count
  let clarity_fb :=
    if clarity_score ≥ 4/5 then ("Your answer is well-structured and clearly written.")
    else if clarity_score ≥ 3/5 then
      ("Your answer could be clearer. Consider improving sentence structure and punctuation.")
    else if word_count < 15 then ("Your answer is too brief. Provide more detail and explanation.")
    else ("Your answer lacks clarity. Break complex ideas into clear sentences.")
  let key_concepts := identify_key_concepts model_answer
  let concept_matches := match_concepts sim key_concepts student_answer
  let missing_concepts := (concept_matches.filter (fun p => ¬ p.2.matched)).map Prod.fst
  let improvements :=
    (if missing_concepts ≠ [] ∧ missing_concepts.length ≤ 3 then
      ["Consider including: " ++ String.intercalate (", ") (missing_concepts.take 3)]
    else if missing_concepts.length > 3 then
      ["Several key concepts are missing. Review the material for completeness."]
    else []) ++
    (if word_count < 20 then ["Provide more detailed explanations."] else []) ++
    (if accuracy_score < 7/10 then ["Review the fundamental concepts to improve accuracy."] else [])
  { overall := overall, accuracy := accuracy_fb, completeness := completeness_fb
    clarity := clarity_fb, improvements := improvements
    strengths := identify_strengths r }

/-- The result of `enhanced_assessment`. -/
structure EnhancedAssessment where
  awarded_score : ℤ
  max_score : ℤ
  percentage : ℚ
  rubric : RubricResult
  concept_analysis : List (String × MatchRes)
  feedback : DetailedFeedback
deriving DecidableEq

/-- Embeds `enhanced_assessment`: rubric scoring, integer award
`int(round(total * max_score))`, percentage `round(total*100, 1)`, concept
analysis and detailed feedback. -/
def enhanced_assessment (sim : String → String → ℚ)
    (model_answer student_answer : String) (max_score : ℤ)
    (rubric_weights : Option RubricWeights) : EnhancedAssessment :=
  let rubric_result := score_with_rubric sim model_answer student_answer rubric_weights
  let total_score := rubric_result.total_score
  { awarded_score := pyRoundInt (total_score * (max_score : ℚ))
    max_score := max_score
    percentage := pyRound (total_score * 100) 1
    rubric := rubric_result
    concept_analysis :=
      match_concepts sim (identify_key_concepts model_answer) student_answer
    feedback := generate_detailed_feedback sim rubric_result model_answer student_answer }

/-! ### `app/services/batch_service.py` -/

/-- One answer of a batch request. -/
structure BatchAnswerItem where
  student_id : String
  model_answer : String
  student_answer : String
  max_score : ℤ
deriving DecidableEq

/-- One result of a batch assessment. -/
structure BatchAssessmentResult where
  student_id : String
  similarity_score : ℚ
  awarded_score : ℤ
  feedback : String
deriving DecidableEq

/-- The loop body of `process_batch_assessments`: a blank model or student
text yields a zero-score result with a fixed message and is skipped from the
running total, every other item is scored. -/
def batchStep (sim : String → String → ℚ)
    (acc : List BatchAssessmentResult × ℤ) (item : BatchAnswerItem) :
    List BatchAssessmentResult × ℤ :=
  if pyStrip item.model_answer = "" ∨ pyStrip item.student_answer = "" then
    (acc.1 ++ [⟨item.student_id, 0, 0, "Invalid answer: empty text provided"⟩], acc.2)
  else
    let similarity := compute_similarity sim item.model_answer item.student_answer
    let score := map_similarity_to_score similarity item.max_score
    (acc.1 ++ [⟨item.student_id, pyRound similarity 3, score, generate_feedback similarity⟩],
      acc.2 + score)

/-- Embeds `process_batch_assessments`: the result list and the rounded
average score. -/
def process_batch_assessments (sim : String → String → ℚ)
    (answers : List BatchAnswerItem) : List BatchAssessmentResult × ℚ :=
  let out := answers.foldl (batchStep sim) ([], 0)
  let avg : ℚ := if out.1 ≠ [] then (out.2 : ℚ) / (out.1.length : ℚ) else 0
  (out.1, pyRound avg 2)

/-! ### `app/crud/paper_crud.py` -/

/-- Embeds `assign_grade`: the fixed letter-grade percentage bands. -/
def assign_grade (percentage : ℚ) : String :=
  if percentage ≥ 90 then ("A+")
  else if percentage ≥ 85 then ("A")
  else if percentage ≥ 80 then ("A-")
  else if percentage ≥ 75 then ("B+")
  else if percentage ≥ 70 then ("B")
  else if percentage ≥ 65 then ("B-")
  else if percentage ≥ 60 then ("C+")
  else if percentage ≥ 55 then ("C")
  else if percentage ≥ 50 then ("C-")
  else if percentage ≥ 45 then ("D")
  else ("F")

/-! ### `app/services/paper_service.py` -/

/-- One question of a paper, as delivered by `get_paper_with_questions`. -/
structure QuestionSpec where
  question_number : ℤ
  question_text : String
  model_answer : String
  marks_allocated : ℤ
deriving DecidableEq

/-- Per-question feedback: a plain string in basic mode, a structured object
in enhanced mode. -/
inductive Feedback where
  | text : String → Feedback
  | detailed : DetailedFeedback → Feedback
deriving DecidableEq

/-- One question result, covering the fields produced by the basic grader,
the enhanced grader and the unanswered case (fields absent from the
respective Python dict are `none`). -/
structure QuestionResult where
  question_number : ℤ
  question_text : String
  student_answer : String
  marks_allocated : ℤ
  awarded_score : ℤ
  similarity_score : Option ℚ
  percentage : Option ℚ
  rubric_breakdown : Option (ℚ × ℚ × ℚ)
  feedback : Feedback
deriving DecidableEq

/-- Embeds `PaperGrader._create_unanswered_result`: zero score, similarity
`0.0` and the fixed message. -/
def create_unanswered_result (q : QuestionSpec) : QuestionResult :=
  { question_number := q.question_number
    question_text := q.question_text
    student_answer := ""
    marks_allocated := q.marks_allocated
    awarded_score := 0
    similarity_score := some 0
    percentage := none
    rubric_breakdown := none
    feedback := .text ("Question not attempted.") }

/-- Embeds `PaperGrader._score_question_basic`: similarity scoring against the
allocated marks. -/
def score_question_basic (sim : String → String → ℚ) (q : QuestionSpec)
    (student_answer : String) : QuestionResult :=
  let similarity := compute_similarity sim q.model_answer student_answer
  { question_number := q.question_number
    question_text := q.question_text
    student_answer := student_answer
    marks_allocated := q.marks_allocated
    awarded_score := map_similarity_to_score similarity q.marks_allocated
    similarity_score := some (pyRound similarity 3)
    percentage := none
    rubric_breakdown := none
    feedback := .text (generate_feedback similarity) }

/-- Embeds `PaperGrader._score_question_enhanced`: rubric-based scoring
against the allocated marks (the enhanced assessment dict holds no
`similarity_score` key, so that field is `none`). -/
def score_question_enhanced (sim : String → String → ℚ) (q : QuestionSpec)
    (student_answer : String) (rubric_weights : Option RubricWeights) :
    QuestionResult :=
  let a := enhanced_assessment sim q.model_answer student_answer
    q.marks_allocated rubric_weights
  { question_number := q.question_number
    question_text := q.question_text
    student_answer := student_answer
    marks_allocated := q.marks_allocated
    awarded_score := a.awarded_score
    similarity_score := none
    percentage := some a.percentage
    rubric_breakdown := some
      (a.rubric.accuracy.score, a.rubric.completeness.score, a.rubric.clarity.score)
    feedback := .detailed a.feedback }

/-- The loop body shared by `grade_paper_basic` and `grade_paper_enhanced`:
look the answer up by question number, strip it, record an unanswered result
for a blank answer (without scoring), otherwise score and accumulate. -/
def gradeStep (scoreQ : QuestionSpec → String → QuestionResult)
    (answers : List (ℤ × String)) (acc : List QuestionResult × ℤ)
    (q : QuestionSpec) : List QuestionResult × ℤ :=
  let student_answer := pyStrip (pyDictGet answers q.question_number (""))
  if student_answer = "" then (acc.1 ++ [create_unanswered_result q], acc.2)
  else
    let r := scoreQ q student_answer
    (acc.1 ++ [r], acc.2 + r.awarded_score)

/-- The grading loop over the questions of the paper, in paper order. -/
def gradeLoop (scoreQ : QuestionSpec → String → QuestionResult)
    (questions : List QuestionSpec) (answers : List (ℤ × String)) :
    List QuestionResult × ℤ :=
  questions.foldl (gradeStep scoreQ answers) ([], 0)

/-- The aggregate result of grading one paper (feedback synthesis, handled by
`_generate_overall_feedback`, is outside every claim and not modelled). -/
structure PaperResult where
  total_score : ℤ
  total_marks : ℤ
  percentage : ℚ
  grade : String
  question_results : List QuestionResult
deriving DecidableEq

/-- Embeds `PaperGrader.grade_paper_basic` (its pure grading core): grade each
question in order, sum awarded marks, compute the guarded percentage, round it
to two decimals for the report, and assign the grade from the unrounded
percentage. -/
def grade_paper_basic (sim : String → String → ℚ)
    (questions : List QuestionSpec) (total_marks : ℤ)
    (answers : List (ℤ × String)) : PaperResult :=
  let out := gradeLoop (score_question_basic sim) questions answers
  let percentage : ℚ :=
    if total_marks > 0 then (out.2 : ℚ) / (total_marks : ℚ) * 100 else 0
  { total_score := out.2
    total_marks := total_marks
    percentage := pyRound percentage 2
    grade := assign_grade percentage
    question_results := out.1 }

/-- Embeds `PaperGrader.grade_paper_enhanced` (its pure grading core): as the
basic grader, with the per-question rubric assessment. -/
def grade_paper_enhanced (sim : String → String → ℚ)
    (questions : List QuestionSpec) (total_marks : ℤ)
    (answers : List (ℤ × String)) (rubric_weights : Option RubricWeights) :
    PaperResult :=
  let out := gradeLoop
    (fun q a => score_question_enhanced sim q a rubric_weights) questions answers
  let percentage : ℚ :=
    if total_marks > 0 then (out.2 : ℚ) / (total_marks : ℚ) * 100 else 0
  { total_score := out.2
    total_marks := total_marks
    percentage := pyRound percentage 2
    grade := assign_grade percentage
    question_results := out.1 }

/-! ### General helper lemmas -/

theorem pyDictInsert_length_le (d : List (String × MatchRes)) (k : String)
    (v : MatchRes) : (pyDictInsert d k v).length ≤ d.length + 1 := by
  unfold pyDictInsert
  split
  · simp
  · simp

theorem matchFold_length_le (f : String → MatchRes) :
    ∀ (cs : List String) (d : List (String × MatchRes)),
      (cs.foldl (fun d c => pyDictInsert d c (f c)) d).length ≤ d.length + cs.length := by
  intro cs
  induction cs with
  | nil => intro d; simp
  | cons c cs ih =>
      intro d
      calc (List.foldl (fun d c => pyDictInsert d c (f c)) (pyDictInsert d c (f c)) cs).length
          ≤ (pyDictInsert d c (f c)).length + cs.length := ih _
        _ ≤ d.length + 1 + cs.length := by
            have := pyDictInsert_length_le d c (f c)
            omega
        _ = d.length + (c :: cs).length := by simp; omega

theorem matchedCount_le_length (ms : List (String × MatchRes)) :
    matchedCount ms ≤ ms.length := by
  unfold matchedCount
  exact List.length_filter_le _ _

theorem match_concepts_length_le (sim : String → String → ℚ)
    (key_concepts : List String) (student_answer : String) :
    (match_concepts sim key_concepts student_answer).length ≤ key_concepts.length := by
  simp only [match_concepts]
  split_ifs with h1 h2
  · simp
  · simpa using matchFold_length_le (fun _ => ⟨false, 0, none⟩) key_concepts []
  · simpa using matchFold_length_le _ key_concepts []

/-! ### Sub-score bounds -/

theorem accuracy_score_bounds (sim : String → String → ℚ)
    (model_answer student_answer : String) :
    0 ≤ (score_accuracy sim model_answer student_answer).score ∧
      (score_accuracy sim model_answer student_answer).score ≤ 1 := by
  unfold score_accuracy
  constructor
  · exact le_max_left 0 _
  · exact max_le (by norm_num) (min_le_left 1 _)

theorem completeness_score_bounds (sim : String → String → ℚ)
    (model_answer student_answer : String) :
    0 ≤ (score_completeness sim model_answer student_answer).score ∧
      (score_completeness sim model_answer student_answer).score ≤ 1 := by
  unfold score_completeness
  simp only
  set lf : ℚ := if wordCount model_answer > 0 then
      min ((wordCount student_answer : ℚ) / (wordCount model_answer : ℚ)) 1 else 0 with hlf
  set kc := identify_key_concepts model_answer with hkc
  set mc := matchedCount (match_concepts sim kc student_answer) with hmc
  set cc : ℚ := if kc ≠ [] then (mc : ℚ) / (kc.length : ℚ) else 0 with hcc
  have hlf0 : 0 ≤ lf := by
    rw [hlf]; split
    · exact le_min (by positivity) (by norm_num)
    · exact le_refl 0
  have hlf1 : lf ≤ 1 := by
    rw [hlf]; split
    · exact min_le_right _ 1
    · norm_num
  have hcc0 : 0 ≤ cc := by
    rw [hcc]; split
    · positivity
    · exact le_refl 0
  have hcc1 : cc ≤ 1 := by
    rw [hcc]; split
    · rename_i hne
      have hlen : 0 < (kc.length : ℚ) := by
        have : kc.length ≠ 0 := by
          simpa [List.length_eq_zero] using hne
        positivity
      rw [div_le_one hlen]
      have h1 : mc ≤ (match_concepts sim kc student_answer).length :=
        matchedCount_le_length _
      have h2 : (match_concepts sim kc student_answer).length ≤ kc.length :=
        match_concepts_length_le sim kc student_answer
      exact_mod_cast le_trans h1 h2
    · norm_num
  constructor
  · nlinarith
  · nlinarith

theorem clarity_score_bounds (student_answer : String) :
    7/20 ≤ (score_clarity student_answer).score ∧
      (score_clarity student_answer).score ≤ 1 := by
  unfold score_clarity
  simp only
  set sc := (pySplitOn '.' student_answer).filter (fun s => pyStrip s ≠ "") with hsc
  set words := pyWords student_answer with hw
  set avg : ℚ := if sc ≠ [] then (words.length : ℚ) / (sc.length : ℚ) else 0 with havg
  set ss : ℚ := if 10 ≤ avg ∧ avg ≤ 20 then 1 else max (1/2) (1 - |avg - 15| / 30) with hss
  set ps : ℚ := if hasPunct student_answer then 1 else 1/2 with hps
  set ls : ℚ := min ((words.length : ℚ) / 20) 1 with hls
  have hss_lb : 1/2 ≤ ss := by
    rw [hss]; split
    · norm_num
    · exact le_max_left _ _
  have hss_ub : ss ≤ 1 := by
    rw [hss]; split
    · exact le_refl 1
    · refine max_le (by norm_num) ?_
      have : 0 ≤ |avg - 15| / 30 := by positivity
      linarith
  have hps_lb : 1/2 ≤ ps := by
    rw [hps]; split <;> norm_num
  have hps_ub : ps ≤ 1 := by
    rw [hps]; split <;> norm_num
  have hls_lb : 0 ≤ ls := by
    rw [hls]; exact le_min (by positivity) (by norm_num)
  have hls_ub : ls ≤ 1 := by
    rw [hls]; exact min_le_right _ 1
  constructor
  · nlinarith
  · nlinarith

/-! ### Claim C1 -/

/-- Claim C1 as stated by the spec uses `round`; that is false on the code.
At `similarity = 0.6`, `maxScore = 5` the scorer awards `int(0.7*5) = 3`,
while rounding would give `round(3.5) = 4`. -/
theorem c1_round_counterexample :
    map_similarity_to_score (3/5) 5 = 3 ∧ round ((7:ℚ)/10 * (5:ℚ)) = 4 := by
  constructor
  · have h1 : ¬ ((3:ℚ)/5 ≥ 4/5) := by norm_num
    have h2 : ((3:ℚ)/5 ≥ 3/5) := by norm_num
    rw [map_similarity_to_score, if_neg h1, if_pos h2]
    have : (7:ℚ)/10 * ((5:ℤ) : ℚ) = 7/2 := by norm_num
    rw [this, pyInt, if_pos (by norm_num)]
    norm_num [Int.floor_eq_iff]
  · norm_num [round_eq, Int.floor_eq_iff]

/-- Claim C1 (amended): for clamped similarity `s` and `maxScore m > 0`, the
basic scorer awards exactly `m` when `s ≥ 0.80`, the truncation `int(0.7*m)`
(not the rounding) when `0.60 ≤ s < 0.80`, `int(0.4*m)` when
`0.40 ≤ s < 0.60`, and `0` when `s < 0.40`; hence the award is always one of
these four values. -/
theorem c1_score_bands (s : ℚ) (m : ℤ) (hs0 : 0 ≤ s) (hs1 : s ≤ 1) (hm : 0 < m) :
    (s ≥ 4/5 → map_similarity_to_score s m = m) ∧
    (3/5 ≤ s ∧ s < 4/5 → map_similarity_to_score s m = ⌊(7:ℚ)/10 * (m : ℚ)⌋) ∧
    (2/5 ≤ s ∧ s < 3/5 → map_similarity_to_score s m = ⌊(2:ℚ)/5 * (m : ℚ)⌋) ∧
    (s < 2/5 → map_similarity_to_score s m = 0) ∧
    (map_similarity_to_score s m = m ∨
      map_similarity_to_score s m = ⌊(7:ℚ)/10 * (m : ℚ)⌋ ∨
      map_similarity_to_score s m = ⌊(2:ℚ)/5 * (m : ℚ)⌋ ∨
      map_similarity_to_score s m = 0) := by
  have hmq : (0:ℚ) ≤ (m : ℚ) := by exact_mod_cast le_of_lt hm
  have hint7 : pyInt (7/10 * (m : ℚ)) = ⌊(7:ℚ)/10 * (m : ℚ)⌋ := by
    rw [pyInt, if_pos (by positivity)]
  have hint2 : pyInt (2/5 * (m : ℚ)) = ⌊(2:ℚ)/5 * (m : ℚ)⌋ := by
    rw [pyInt, if_pos (by positivity)]
  unfold map_similarity_to_score
  refine ⟨fun h => ?_, fun h => ?_, fun h => ?_, fun h => ?_, ?_⟩
  · rw [if_pos h]
  · rw [if_neg (by simp only [ge_iff_le, not_le]; linarith [h.2]),
      if_pos (by exact h.1), hint7]
  · rw [if_neg (by simp only [ge_iff_le, not_le]; linarith [h.2]),
      if_neg (by simp only [ge_iff_le, not_le]; linarith [h.2]),
      if_pos (by exact h.1), hint2]
  · rw [if_neg (by simp only [ge_iff_le, not_le]; linarith),
      if_neg (by simp only [ge_iff_le, not_le]; linarith),
      if_neg (by simp only [ge_iff_le, not_le]; linarith)]
  · by_cases h1 : s ≥ 4/5
    · left; rw [if_pos h1]
    · by_cases h2 : s ≥ 3/5
      · right; left; rw [if_neg h1, if_pos h2, hint7]
      · by_cases h3 : s ≥ 2/5
        · right; right; left; rw [if_neg h1, if_neg h2, if_pos h3, hint2]
        · right; right; right; rw [if_neg h1, if_neg h2, if_neg h3]

/-- Witness for C1 (amended): the bands at `s = 0.7`, `m = 5`. -/
theorem c1_score_bands_witness :
    (0 ≤ (7:ℚ)/10 ∧ (7:ℚ)/10 ≤ 1 ∧ (0:ℤ) < 5) ∧
    (((7:ℚ)/10 ≥ 4/5 → map_similarity_to_score (7/10) 5 = 5) ∧
    (3/5 ≤ (7:ℚ)/10 ∧ (7:ℚ)/10 < 4/5 →
      map_similarity_to_score (7/10) 5 = ⌊(7:ℚ)/10 * ((5:ℤ) : ℚ)⌋) ∧
    (2/5 ≤ (7:ℚ)/10 ∧ (7:ℚ)/10 < 3/5 →
      map_similarity_to_score (7/10) 5 = ⌊(2:ℚ)/5 * ((5:ℤ) : ℚ)⌋) ∧
    ((7:ℚ)/10 < 2/5 → map_similarity_to_score (7/10) 5 = 0) ∧
    (map_similarity_to_score (7/10) 5 = 5 ∨
      map_similarity_to_score (7/10) 5 = ⌊(7:ℚ)/10 * ((5:ℤ) : ℚ)⌋ ∨
      map_similarity_to_score (7/10) 5 = ⌊(2:ℚ)/5 * ((5:ℤ) : ℚ)⌋ ∨
      map_similarity_to_score (7/10) 5 = 0)) :=
  ⟨⟨by norm_num, by norm_num, by norm_num⟩,
    c1_score_bands (7/10) 5 (by norm_num) (by norm_num) (by norm_num)⟩

/-! ### Claim C2 -/

/-- Claim C2 is false of the code while the spec is clearly the intent:
`assess_answer` returns the tuple `(similarity, score)`, but
`assess_single_answer` subscripts that tuple with the string keys
`similarity`, `score` and `feedback` (and no feedback is computed at all).
For every input the call raises a `TypeError` instead of yielding the
promised three-field result. -/
theorem c2_assess_single_answer_raises (sim : String → String → ℚ)
    (model_answer student_answer : String) (max_score : ℤ) :
    assess_single_answer sim model_answer student_answer max_score =
      .error ("TypeError: tuple indices must be integers or slices, not str") := rfl

/-- Claim C2 at a concrete failing input: a fully valid request (non-empty
texts, positive marks, similarity oracle `1`) still errors. -/
theorem c2_raises_at_valid_input :
    assess_single_answer (fun _ _ => 1) ("The cat sat.") ("The cat sat.") 10 =
      .error ("TypeError: tuple indices must be integers or slices, not str") := rfl

theorem rubric_accuracy_eq (sim : String → String → ℚ) (m s : String)
    (w : Option RubricWeights) :
    (score_with_rubric sim m s w).accuracy = score_accuracy sim m s := rfl

theorem rubric_completeness_eq (sim : String → String → ℚ) (m s : String)
    (w : Option RubricWeights) :
    (score_with_rubric sim m s w).completeness = score_completeness sim m s := rfl

theorem rubric_clarity_eq (sim : String → String → ℚ) (m s : String)
    (w : Option RubricWeights) :
    (score_with_rubric sim m s w).clarity = score_clarity s := rfl

theorem rubric_total_eq (sim : String → String → ℚ) (m s : String)
    (w : Option RubricWeights) :
    (score_with_rubric sim m s w).total_score =
      (score_accuracy sim m s).score * (w.getD defaultWeights).accuracy +
      (score_completeness sim m s).score * (w.getD defaultWeights).completeness +
      (score_clarity s).score * (w.getD defaultWeights).clarity := rfl

/-! ### Properties of the argmax scan -/

theorem bmStep_fst_le (sim : String → String → ℚ) (c : String)
    (acc : ℚ × String) (q : String) : acc.1 ≤ (bmStep sim c acc q).1 := by
  unfold bmStep
  split
  · rename_i h; exact le_of_lt h
  · exact le_refl _

theorem bmFold_fst_le (sim : String → String → ℚ) (c : String) :
    ∀ (ps : List String) (acc : ℚ × String),
      acc.1 ≤ (ps.foldl (bmStep sim c) acc).1 := by
  intro ps
  induction ps with
  | nil => intro acc; exact le_refl _
  | cons q ps ih =>
      intro acc
      exact le_trans (bmStep_fst_le sim c acc q) (ih (bmStep sim c acc q))

theorem bmFold_bound (sim : String → String → ℚ) (c : String) :
    ∀ (ps : List String) (acc : ℚ × String),
      ∀ p ∈ ps, sim c p ≤ (ps.foldl (bmStep sim c) acc).1 := by
  intro ps
  induction ps with
  | nil => intro acc p hp; exact absurd hp (List.not_mem_nil p)
  | cons q ps ih =>
      intro acc p hp
      rcases List.mem_cons.mp hp with h | h
      · subst h
        refine le_trans ?_ (bmFold_fst_le sim c ps (bmStep sim c acc p))
        unfold bmStep
        split
        · exact le_refl _
        · rename_i hlt
          exact le_of_not_lt hlt
      · exact ih (bmStep sim c acc q) p h

theorem bmFold_attained (sim : String → String → ℚ) (c : String) :
    ∀ (ps : List String) (acc : ℚ × String),
      ps.foldl (bmStep sim c) acc = acc ∨
        ((ps.foldl (bmStep sim c) acc).2 ∈ ps ∧
          (ps.foldl (bmStep sim c) acc).1 =
            sim c (ps.foldl (bmStep sim c) acc).2) := by
  intro ps
  induction ps with
  | nil => intro acc; exact Or.inl rfl
  | cons q ps ih =>
      intro acc
      rcases ih (bmStep sim c acc q) with h | h
      · rw [List.foldl_cons, h]
        unfold bmStep
        split
        · exact Or.inr ⟨List.mem_cons_self q ps, rfl⟩
        · exact Or.inl rfl
      · exact Or.inr ⟨List.mem_cons_of_mem q h.1, h.2⟩

theorem bestMatch_spec (sim : String → String → ℚ) (c : String)
    (l : List String) (hl : l ≠ []) :
    (bestMatch sim c l).2 ∈ l ∧
      (bestMatch sim c l).1 = sim c (bestMatch sim c l).2 ∧
      ∀ p ∈ l, sim c p ≤ (bestMatch sim c l).1 := by
  match l with
  | [] => exact absurd rfl hl
  | p :: ps =>
      have hb : bestMatch sim c (p :: ps) = ps.foldl (bmStep sim c) (sim c p, p) := rfl
      rw [hb]
      refine ⟨?_, ?_, ?_⟩
      · rcases bmFold_attained sim c ps (sim c p, p) with h | h
        · rw [h]; exact List.mem_cons_self p ps
        · exact List.mem_cons_of_mem p h.1
      · rcases bmFold_attained sim c ps (sim c p, p) with h | h
        · rw [h]
        · exact h.2
      · intro q hq
        rcases List.mem_cons.mp hq with h | h
        · subst h; exact bmFold_fst_le sim c ps (sim c q, q)
        · exact bmFold_bound sim c ps (sim c p, p) q h

/-! ### Characterisation of the Python dict built by `match_concepts` -/

/-- One step of first-occurrence deduplication of the dict keys. -/
def dedupStep (acc : List String) (c : String) : List String :=
  if c ∈ acc then acc else acc ++ [c]

/-- The key list of a Python dict built by writing the keys in order. -/
def dedupFirst (cs : List String) : List String := cs.foldl dedupStep []

theorem pyDictInsert_map (f : String → MatchRes) (ks : List String) (c : String) :
    pyDictInsert (ks.map (fun k => (k, f k))) c (f c) =
      (dedupStep ks c).map (fun k => (k, f k)) := by
  unfold pyDictInsert dedupStep
  have hfst : (ks.map (fun k => (k, f k))).map Prod.fst = ks := by
    simp [Function.comp_def]
  simp only [hfst]
  split
  · rw [List.map_map]
    apply List.map_congr_left
    intro k _
    by_cases h : k = c
    · subst h; simp
    · simp [h]
  · simp

theorem matchFold_go (f : String → MatchRes) :
    ∀ (cs ks : List String),
      cs.foldl (fun d c => pyDictInsert d c (f c)) (ks.map (fun k => (k, f k))) =
        (cs.foldl dedupStep ks).map (fun k => (k, f k)) := by
  intro cs
  induction cs with
  | nil => intro ks; rfl
  | cons c cs ih =>
      intro ks
      rw [List.foldl_cons, List.foldl_cons, pyDictInsert_map, ih]

theorem matchFold_eq (f : String → MatchRes) (cs : List String) :
    cs.foldl (fun d c => pyDictInsert d c (f c)) [] =
      (dedupFirst cs).map (fun k => (k, f k)) := by
  have h := matchFold_go f cs []
  simpa [dedupFirst] using h

theorem mem_dedupFold :
    ∀ (cs acc : List String) (x : String),
      x ∈ cs.foldl dedupStep acc ↔ x ∈ acc ∨ x ∈ cs := by
  intro cs
  induction cs with
  | nil => intro acc x; simp
  | cons c cs ih =>
      intro acc x
      rw [List.foldl_cons, ih]
      unfold dedupStep
      by_cases hc : c ∈ acc
      · rw [if_pos hc]
        simp only [List.mem_cons]
        constructor
        · rintro (h | h)
          · exact Or.inl h
          · exact Or.inr (Or.inr h)
        · rintro (h | h | h)
          · exact Or.inl h
          · exact Or.inl (h ▸ hc)
          · exact Or.inr h
      · rw [if_neg hc]
        simp only [List.mem_append, List.mem_cons, List.mem_singleton]
        tauto

theorem mem_dedupFirst (cs : List String) (x : String) :
    x ∈ dedupFirst cs ↔ x ∈ cs := by
  rw [dedupFirst, mem_dedupFold]
  simp

theorem match_concepts_of_no_phrase (sim : String → String → ℚ)
    (key_concepts : List String) (student_answer : String)
    (hk : key_concepts ≠ []) (hp : extract_key_phrases student_answer = []) :
    match_concepts sim key_concepts student_answer =
      (dedupFirst key_concepts).map (fun c => (c, ⟨false, 0, none⟩)) := by
  simp only [match_concepts, if_neg hk]
  rw [if_pos hp]
  exact matchFold_eq _ key_concepts

theorem match_concepts_of_phrases (sim : String → String → ℚ)
    (key_concepts : List String) (student_answer : String)
    (hk : key_concepts ≠ []) (hp : extract_key_phrases student_answer ≠ []) :
    match_concepts sim key_concepts student_answer =
      (dedupFirst key_concepts).map
        (fun c => (c, matchResultFor sim (extract_key_phrases student_answer) c)) := by
  simp only [match_concepts, if_neg hk]
  rw [if_neg hp]
  exact matchFold_eq _ key_concepts

theorem matchResultFor_score (sim : String → String → ℚ) (sp : List String)
    (c : String) : (matchResultFor sim sp c).score = (bestMatch sim c sp).1 := rfl

theorem matchResultFor_matched (sim : String → String → ℚ) (sp : List String)
    (c : String) :
    (matchResultFor sim sp c).matched = decide ((bestMatch sim c sp).1 ≥ 13/20) := rfl

theorem matchResultFor_phrase (sim : String → String → ℚ) (sp : List String)
    (c : String) :
    (matchResultFor sim sp c).matched_phrase =
      if (bestMatch sim c sp).1 ≥ 13/20 then some (bestMatch sim c sp).2 else none := rfl

/-! ### Claim C5 -/

/-- Claim C5: for every non-empty concept list, when no candidate phrase is
extracted every concept is unmatched with score `0` and no matched phrase;
otherwise every dict entry carries the maximal cosine similarity over the
candidate phrases as its score, is matched exactly when that maximum reaches
`0.65`, and records a maximising phrase exactly when matched. -/
theorem c5_match_concepts (sim : String → String → ℚ) (key_concepts : List String)
    (student_answer : String) (hk : key_concepts ≠ []) :
    (∀ c ∈ key_concepts, ∃ m, (c, m) ∈ match_concepts sim key_concepts student_answer) ∧
    (extract_key_phrases student_answer = [] →
      ∀ p ∈ match_concepts sim key_concepts student_answer,
        p.2 = ⟨false, 0, none⟩) ∧
    (extract_key_phrases student_answer ≠ [] →
      ∀ p ∈ match_concepts sim key_concepts student_answer,
        (∀ q ∈ extract_key_phrases student_answer, sim p.1 q ≤ p.2.score) ∧
        (∃ q ∈ extract_key_phrases student_answer, sim p.1 q = p.2.score) ∧
        (p.2.matched = true ↔ 13/20 ≤ p.2.score) ∧
        (p.2.matched = true → ∃ q ∈ extract_key_phrases student_answer,
          p.2.matched_phrase = some q ∧ sim p.1 q = p.2.score) ∧
        (p.2.matched = false → p.2.matched_phrase = none)) := by
  by_cases hp : extract_key_phrases student_answer = []
  · rw [match_concepts_of_no_phrase sim key_concepts student_answer hk hp]
    refine ⟨?_, ?_, ?_⟩
    · intro c hc
      exact ⟨⟨false, 0, none⟩, List.mem_map.mpr ⟨c, (mem_dedupFirst _ _).mpr hc, rfl⟩⟩
    · intro _ p hpm
      rcases List.mem_map.mp hpm with ⟨c, _, hce⟩
      rw [← hce]
    · intro hne
      exact absurd hp hne
  · rw [match_concepts_of_phrases sim key_concepts student_answer hk hp]
    refine ⟨?_, ?_, ?_⟩
    · intro c hc
      exact ⟨_, List.mem_map.mpr ⟨c, (mem_dedupFirst _ _).mpr hc, rfl⟩⟩
    · intro h
      exact absurd h hp
    · intro _ p hpm
      rcases List.mem_map.mp hpm with ⟨c, _, hce⟩
      subst hce
      obtain ⟨hmem, heq, hbound⟩ :=
        bestMatch_spec sim c (extract_key_phrases student_answer) hp
      refine ⟨?_, ?_, ?_, ?_, ?_⟩
      · intro q hq
        rw [matchResultFor_score]
        exact hbound q hq
      · exact ⟨_, hmem, by rw [matchResultFor_score]; exact heq.symm⟩
      · rw [matchResultFor_matched, matchResultFor_score]
        exact decide_eq_true_iff
      · intro hm
        rw [matchResultFor_matched] at hm
        have hge := of_decide_eq_true hm
        refine ⟨(bestMatch sim c (extract_key_phrases student_answer)).2, hmem, ?_, ?_⟩
        · rw [matchResultFor_phrase, if_pos hge]
        · rw [matchResultFor_score]
          exact heq.symm
      · intro hm
        rw [matchResultFor_matched] at hm
        have hnge := of_decide_eq_false hm
        rw [matchResultFor_phrase, if_neg hnge]

/-- Witness for C5 at a concrete input. -/
theorem c5_match_concepts_witness :
    ((["cat dog"] : List String) ≠ []) ∧
    ((∀ c ∈ (["cat dog"] : List String), ∃ m,
        (c, m) ∈ match_concepts (fun _ _ => 1) ["cat dog"] ("cat dog")) ∧
    (extract_key_phrases ("cat dog") = [] →
      ∀ p ∈ match_concepts (fun _ _ => 1) ["cat dog"] ("cat dog"),
        p.2 = ⟨false, 0, none⟩) ∧
    (extract_key_phrases ("cat dog") ≠ [] →
      ∀ p ∈ match_concepts (fun _ _ => 1) ["cat dog"] ("cat dog"),
        (∀ q ∈ extract_key_phrases ("cat dog"), (fun _ _ => (1:ℚ)) p.1 q ≤ p.2.score) ∧
        (∃ q ∈ extract_key_phrases ("cat dog"), (fun _ _ => (1:ℚ)) p.1 q = p.2.score) ∧
        (p.2.matched = true ↔ 13/20 ≤ p.2.score) ∧
        (p.2.matched = true → ∃ q ∈ extract_key_phrases ("cat dog"),
          p.2.matched_phrase = some q ∧ (fun _ _ => (1:ℚ)) p.1 q = p.2.score) ∧
        (p.2.matched = false → p.2.matched_phrase = none))) :=
  ⟨by simp, c5_match_concepts (fun _ _ => 1) ["cat dog"] ("cat dog") (by simp)⟩

/-! ### Claim C7 -/

theorem matchedCount_map (f : String → MatchRes) (l : List String) :
    matchedCount (l.map (fun c => (c, f c))) = l.countP (fun c => (f c).matched) := by
  unfold matchedCount
  rw [List.filter_map, List.length_map, ← List.countP_eq_length_filter]
  rfl

theorem coverage_proj (sim : String → String → ℚ) (m s : String) :
    (score_completeness sim m s).concept_coverage =
      (if identify_key_concepts m ≠ [] then
        ((matchedCount (match_concepts sim (identify_key_concepts m) s) : ℚ) /
          ((identify_key_concepts m).length : ℚ)) else 0) := rfl

theorem matchedCount_mono (sim : String → String → ℚ) (kc : List String)
    (ansA ansB : String) (hk : kc ≠ [])
    (hsub : ∀ q ∈ extract_key_phrases ansA, q ∈ extract_key_phrases ansB) :
    matchedCount (match_concepts sim kc ansA) ≤
      matchedCount (match_concepts sim kc ansB) := by
  by_cases hpA : extract_key_phrases ansA = []
  · rw [match_concepts_of_no_phrase sim kc ansA hk hpA, matchedCount_map]
    simp
  · have hpB : extract_key_phrases ansB ≠ [] := by
      intro h
      obtain ⟨q, hq⟩ := List.exists_mem_of_ne_nil _ hpA
      have := hsub q hq
      rw [h] at this
      exact absurd this (List.not_mem_nil q)
    rw [match_concepts_of_phrases sim kc ansA hk hpA,
      match_concepts_of_phrases sim kc ansB hk hpB,
      matchedCount_map, matchedCount_map]
    apply List.countP_mono_left
    intro c _ hmA
    rw [matchResultFor_matched] at hmA ⊢
    have hA := of_decide_eq_true hmA
    obtain ⟨hmemA, heqA, _⟩ := bestMatch_spec sim c (extract_key_phrases ansA) hpA
    obtain ⟨_, _, hboundB⟩ := bestMatch_spec sim c (extract_key_phrases ansB) hpB
    apply decide_eq_true
    have h1 := hboundB _ (hsub _ hmemA)
    rw [← heqA] at h1
    exact le_trans hA h1

/-- Claim C7: concept coverage is monotone — for a fixed model answer, when
every phrase extracted from one candidate answer is also extracted from a
second, the concept coverage of the second is at least that of the first. -/
theorem c7_coverage_monotone (sim : String → String → ℚ) (model ansA ansB : String)
    (hsub : ∀ q ∈ extract_key_phrases ansA, q ∈ extract_key_phrases ansB) :
    (score_completeness sim model ansA).concept_coverage ≤
      (score_completeness sim model ansB).concept_coverage := by
  rw [coverage_proj, coverage_proj]
  by_cases hk : identify_key_concepts model = []
  · simp [hk]
  · rw [if_pos hk, if_pos hk]
    have hn : 0 < ((identify_key_concepts model).length : ℚ) := by
      have : (identify_key_concepts model).length ≠ 0 := by
        simpa [List.length_eq_zero] using hk
      positivity
    rw [div_le_div_iff_of_pos_right hn]
    exact_mod_cast matchedCount_mono sim (identify_key_concepts model) ansA ansB hk hsub

/-- Witness for C7: an empty candidate answer against a two-word answer. -/
theorem c7_coverage_monotone_witness :
    (∀ q ∈ extract_key_phrases (""), q ∈ extract_key_phrases ("cat dog")) ∧
    (score_completeness (fun _ _ => 1) ("cat dog") ("")).concept_coverage ≤
      (score_completeness (fun _ _ => 1) ("cat dog") ("cat dog")).concept_coverage :=
  ⟨by decide, c7_coverage_monotone (fun _ _ => 1) ("cat dog") ("") ("cat dog") (by decide)⟩

/-! ### Claim C4 -/

/-- Claim C4: with the default rubric weights the total equals
`0.5*accuracy + 0.35*completeness + 0.15*clarity` exactly, and each of the
three sub-scores lies within `[0, 1]`. -/
theorem c4_rubric_total_and_bounds (sim : String → String → ℚ)
    (model_answer student_answer : String) :
    (score_with_rubric sim model_answer student_answer none).total_score =
      1/2 * (score_with_rubric sim model_answer student_answer none).accuracy.score +
      7/20 * (score_with_rubric sim model_answer student_answer none).completeness.score +
      3/20 * (score_with_rubric sim model_answer student_answer none).clarity.score ∧
    (0 ≤ (score_with_rubric sim model_answer student_answer none).accuracy.score ∧
      (score_with_rubric sim model_answer student_answer none).accuracy.score ≤ 1) ∧
    (0 ≤ (score_with_rubric sim model_answer student_answer none).completeness.score ∧
      (score_with_rubric sim model_answer student_answer none).completeness.score ≤ 1) ∧
    (0 ≤ (score_with_rubric sim model_answer student_answer none).clarity.score ∧
      (score_with_rubric sim model_answer student_answer none).clarity.score ≤ 1) := by
  have hacc := accuracy_score_bounds sim model_answer student_answer
  have hcomp := completeness_score_bounds sim model_answer student_answer
  have hclar := clarity_score_bounds student_answer
  simp only [rubric_accuracy_eq, rubric_completeness_eq, rubric_clarity_eq,
    rubric_total_eq, Option.getD_none, defaultWeights]
  refine ⟨by ring, hacc, hcomp, ⟨by linarith [hclar.1], hclar.2⟩⟩

/-! ### Claim C6 -/

theorem mem_foldr_append {α β : Type} (g : α → List β) (l : List α) (x : β) :
    x ∈ l.foldr (fun a rest => g a ++ rest) [] ↔ ∃ a ∈ l, x ∈ g a := by
  induction l with
  | nil => simp
  | cons a l ih => simp [List.mem_append, ih]

/-- Claim C6 is false on the code in two of its conjuncts, both exhibited by
the text `Hi. ab; cd ef.`: the one-word sentence `Hi` is extracted whole (so
not every extracted phrase has at least 2 words), and the semicolon sentence
is never split (the claimed semicolon-delimited sub-phrase `cd ef`, which has
2 words, is absent — the sentence appears unsplit, twice). -/
theorem c6_extraction_counterexample :
    extract_key_phrases ("Hi. ab; cd ef.") =
      [("Hi" : String), ("ab; cd ef" : String), ("ab; cd ef" : String)] ∧
    wordCount ("Hi") = 1 ∧
    ("cd ef" : String) ∉ extract_key_phrases ("Hi. ab; cd ef.") ∧
    2 ≤ wordCount ("cd ef") := by
  decide

/-- Claim C6 (amended): phrase extraction returns, per sentence in order of
appearance, the whole sentence whenever it has at most 15 words (with no
minimum word count) followed by its comma-delimited sub-phrases of at least
2 words — an ordered-sequence equation, so order and multiplicity are fixed;
semicolons are not used as delimiters. Every extracted phrase is therefore a
whole short sentence or a two-word comma sub-phrase, all such phrases occur,
and `identify_key_concepts` returns the first `topN` (default 5) phrases in
extraction order. -/
theorem c6_extract_structure (text : String) :
    (extract_key_phrases text =
      (sentencesOf text).flatMap (fun s =>
        (if wordCount s ≤ 15 then [s] else []) ++
          ((commaParts s).filter (fun p => 2 ≤ wordCount p)))) ∧
    (∀ p ∈ extract_key_phrases text,
      (p ∈ sentencesOf text ∧ wordCount p ≤ 15) ∨
      (∃ s ∈ sentencesOf text, p ∈ commaParts s ∧ 2 ≤ wordCount p)) ∧
    (∀ s ∈ sentencesOf text, wordCount s ≤ 15 → s ∈ extract_key_phrases text) ∧
    (∀ s ∈ sentencesOf text, ∀ p ∈ commaParts s, 2 ≤ wordCount p →
      p ∈ extract_key_phrases text) ∧
    identify_key_concepts text = (extract_key_phrases text).take 5 := by
  refine ⟨?_, ?_, ?_, ?_, ?_⟩
  · rw [extract_key_phrases]
    induction sentencesOf text with
    | nil => rfl
    | cons s ss ih =>
        rw [List.foldr_cons, List.flatMap_cons, ih]
        simp [wordCount]
  · intro p hp
    rw [extract_key_phrases, mem_foldr_append] at hp
    obtain ⟨s, hs, hpb⟩ := hp
    rcases List.mem_append.mp hpb with h | h
    · left
      by_cases h15 : (pyWords s).length ≤ 15
      · rw [if_pos h15] at h
        rcases List.mem_singleton.mp h with rfl
        exact ⟨hs, h15⟩
      · rw [if_neg h15] at h
        exact absurd h (List.not_mem_nil p)
    · right
      rcases List.mem_filter.mp h with ⟨hmem, hwc⟩
      exact ⟨s, hs, hmem, by simpa [wordCount] using of_decide_eq_true hwc⟩
  · intro s hs h15
    rw [extract_key_phrases, mem_foldr_append]
    refine ⟨s, hs, List.mem_append.mpr (Or.inl ?_)⟩
    rw [if_pos (by simpa [wordCount] using h15)]
    exact List.mem_singleton.mpr rfl
  · intro s hs p hp hwc
    rw [extract_key_phrases, mem_foldr_append]
    refine ⟨s, hs, List.mem_append.mpr (Or.inr ?_)⟩
    exact List.mem_filter.mpr ⟨hp, decide_eq_true (by simpa [wordCount] using hwc)⟩
  · rw [identify_key_concepts]
    split
    · rfl
    · rename_i h
      exact (List.take_of_length_le (le_of_not_lt h)).symm

/-- Witness for C6 (amended) at a concrete text. -/
theorem c6_extract_structure_witness :
    (extract_key_phrases ("Water, air and light. Hi.") =
      (sentencesOf ("Water, air and light. Hi.")).flatMap (fun s =>
        (if wordCount s ≤ 15 then [s] else []) ++
          ((commaParts s).filter (fun p => 2 ≤ wordCount p)))) ∧
    (∀ p ∈ extract_key_phrases ("Water, air and light. Hi."),
      (p ∈ sentencesOf ("Water, air and light. Hi.") ∧ wordCount p ≤ 15) ∨
      (∃ s ∈ sentencesOf ("Water, air and light. Hi."), p ∈ commaParts s ∧ 2 ≤ wordCount p)) ∧
    (∀ s ∈ sentencesOf ("Water, air and light. Hi."), wordCount s ≤ 15 →
      s ∈ extract_key_phrases ("Water, air and light. Hi.")) ∧
    (∀ s ∈ sentencesOf ("Water, air and light. Hi."), ∀ p ∈ commaParts s,
      2 ≤ wordCount p → p ∈ extract_key_phrases ("Water, air and light. Hi.")) ∧
    identify_key_concepts ("Water, air and light. Hi.") =
      (extract_key_phrases ("Water, air and light. Hi.")).take 5 :=
  c6_extract_structure ("Water, air and light. Hi.")

/-! ### Paper grading loop characterisation -/

/-- The per-question outcome of the grading loop. -/
def stepQR (scoreQ : QuestionSpec → String → QuestionResult)
    (answers : List (ℤ × String)) (q : QuestionSpec) : QuestionResult :=
  let sa := pyStrip (pyDictGet answers q.question_number (""))
  if sa = "" then create_unanswered_result q else scoreQ q sa

theorem gradeLoop_go (scoreQ : QuestionSpec → String → QuestionResult)
    (answers : List (ℤ × String)) :
    ∀ (qs : List QuestionSpec) (rs : List QuestionResult) (t : ℤ),
      qs.foldl (gradeStep scoreQ answers) (rs, t) =
        (rs ++ qs.map (stepQR scoreQ answers),
          t + ((qs.map (stepQR scoreQ answers)).map QuestionResult.awarded_score).sum) := by
  intro qs
  induction qs with
  | nil => intro rs t; simp
  | cons q qs ih =>
      intro rs t
      rw [List.foldl_cons]
      by_cases hb : pyStrip (pyDictGet answers q.question_number ("")) = ""
      · have hstep : gradeStep scoreQ answers (rs, t) q =
            (rs ++ [create_unanswered_result q], t) := by
          simp only [gradeStep]
          rw [if_pos hb]
        have hq : stepQR scoreQ answers q = create_unanswered_result q := by
          simp only [stepQR]
          rw [if_pos hb]
        rw [hstep, ih]
        simp [hq, create_unanswered_result]
      · have hstep : gradeStep scoreQ answers (rs, t) q =
            (rs ++ [scoreQ q (pyStrip (pyDictGet answers q.question_number ("")))],
              t + (scoreQ q (pyStrip (pyDictGet answers q.question_number ("")))).awarded_score) := by
          simp only [gradeStep]
          rw [if_neg hb]
        have hq : stepQR scoreQ answers q =
            scoreQ q (pyStrip (pyDictGet answers q.question_number (""))) := by
          simp only [stepQR]
          rw [if_neg hb]
        rw [hstep, ih]
        simp [hq, add_assoc]

theorem gradeLoop_eq (scoreQ : QuestionSpec → String → QuestionResult)
    (questions : List QuestionSpec) (answers : List (ℤ × String)) :
    gradeLoop scoreQ questions answers =
      (questions.map (stepQR scoreQ answers),
        ((questions.map (stepQR scoreQ answers)).map QuestionResult.awarded_score).sum) := by
  have h := gradeLoop_go scoreQ answers questions [] 0
  simpa [gradeLoop] using h

/-! ### Claim C3 -/

/-- Claim C3 as stated requires the reported percentage to equal
`totalScore/totalMarks*100` exactly; false on the code, which reports the
value rounded to two decimals: one awarded mark out of three gives the report
`33.33`, not `100/3`. -/
theorem c3_percentage_rounding_counterexample :
    (grade_paper_basic (fun _ _ => 1) [⟨1, "Q", "M", 1⟩] 3 [(1, "a")]).total_score = 1 ∧
    (grade_paper_basic (fun _ _ => 1) [⟨1, "Q", "M", 1⟩] 3 [(1, "a")]).percentage = 3333/100 ∧
    ((3333 : ℚ)/100 ≠ (1 : ℚ) / 3 * 100) := by
  have hb : pyStrip (pyDictGet [(1, "a")] 1 ("")) = "a" := by decide
  have hone : compute_similarity (fun _ _ => 1) ("M") ("a") = 1 := by
    simp [compute_similarity, clamp01]
  have hscore : map_similarity_to_score 1 1 = 1 := by
    rw [map_similarity_to_score, if_pos (by norm_num)]
  have hstep : stepQR (score_question_basic (fun _ _ => 1)) [(1, "a")] ⟨1, "Q", "M", 1⟩ =
      score_question_basic (fun _ _ => 1) ⟨1, "Q", "M", 1⟩ ("a") := by
    simp only [stepQR]
    rw [hb]
    simp
  have haw : (score_question_basic (fun _ _ => 1) ⟨1, "Q", "M", 1⟩ ("a")).awarded_score = 1 := by
    show map_similarity_to_score (compute_similarity (fun _ _ => 1) ("M") ("a")) 1 = 1
    rw [hone, hscore]
  have htot : (grade_paper_basic (fun _ _ => 1) [⟨1, "Q", "M", 1⟩] 3 [(1, "a")]).total_score = 1 := by
    show (gradeLoop (score_question_basic (fun _ _ => 1)) [⟨1, "Q", "M", 1⟩] [(1, "a")]).2 = 1
    rw [gradeLoop_eq]
    simp [hstep, haw]
  refine ⟨htot, ?_, by norm_num⟩
  show pyRound (if (3:ℤ) > 0 then
      ((gradeLoop (score_question_basic (fun _ _ => 1)) [⟨1, "Q", "M", 1⟩] [(1, "a")]).2 : ℚ) /
        ((3:ℤ) : ℚ) * 100 else 0) 2 = 3333/100
  rw [gradeLoop_eq]
  simp only [hstep, List.map_cons, List.map_nil, haw, List.sum_cons, List.sum_nil]
  rw [if_pos (by norm_num)]
  have harg : (((1:ℤ) + 0 : ℤ) : ℚ) / ((3:ℤ) : ℚ) * 100 = 100/3 := by push_cast; ring
  rw [harg, pyRound, pyRoundInt]
  have hfl : ⌊(100 : ℚ)/3 * 10 ^ 2⌋ = 3333 := by
    norm_num [Int.floor_eq_iff]
  rw [hfl, if_pos (by push_cast; norm_num)]
  norm_num

/-- Claim C3 (amended): for both graders the reported total equals the sum of
the awarded scores over all question results; the reported percentage is
`totalScore/totalMarks*100` rounded to two decimals, and `0` when the total
marks are `0` (no division fault); the grade is assigned from the unrounded
percentage by the fixed bands, under which `91.2` gives an A+, `44.9` an F
and `70.0` exactly a B. -/
theorem c3_paper_aggregation (sim : String → String → ℚ)
    (questions : List QuestionSpec) (total_marks : ℤ)
    (answers : List (ℤ × String)) (w : Option RubricWeights) :
    ((grade_paper_basic sim questions total_marks answers).total_score =
      ((grade_paper_basic sim questions total_marks answers).question_results.map
        QuestionResult.awarded_score).sum) ∧
    ((grade_paper_enhanced sim questions total_marks answers w).total_score =
      ((grade_paper_enhanced sim questions total_marks answers w).question_results.map
        QuestionResult.awarded_score).sum) ∧
    ((grade_paper_basic sim questions total_marks answers).percentage =
      pyRound (if total_marks > 0 then
        ((grade_paper_basic sim questions total_marks answers).total_score : ℚ) /
          (total_marks : ℚ) * 100 else 0) 2) ∧
    ((grade_paper_basic sim questions total_marks answers).grade =
      assign_grade (if total_marks > 0 then
        ((grade_paper_basic sim questions total_marks answers).total_score : ℚ) /
          (total_marks : ℚ) * 100 else 0)) ∧
    ((grade_paper_enhanced sim questions total_marks answers w).percentage =
      pyRound (if total_marks > 0 then
        ((grade_paper_enhanced sim questions total_marks answers w).total_score : ℚ) /
          (total_marks : ℚ) * 100 else 0) 2) ∧
    ((grade_paper_enhanced sim questions total_marks answers w).grade =
      assign_grade (if total_marks > 0 then
        ((grade_paper_enhanced sim questions total_marks answers w).total_score : ℚ) /
          (total_marks : ℚ) * 100 else 0)) ∧
    (total_marks = 0 →
      (grade_paper_basic sim questions total_marks answers).percentage = 0 ∧
      (grade_paper_enhanced sim questions total_marks answers w).percentage = 0) ∧
    (assign_grade (912/10) = "A+" ∧ assign_grade (449/10) = "F" ∧
      assign_grade 70 = "B") := by
  have hzero : pyRound 0 2 = 0 := by
    rw [pyRound, pyRoundInt]
    norm_num
  refine ⟨?_, ?_, rfl, rfl, rfl, rfl, ?_, ?_, ?_, ?_⟩
  · show (gradeLoop (score_question_basic sim) questions answers).2 =
      ((gradeLoop (score_question_basic sim) questions answers).1.map
        QuestionResult.awarded_score).sum
    rw [gradeLoop_eq]
  · show (gradeLoop (fun q a => score_question_enhanced sim q a w) questions answers).2 =
      ((gradeLoop (fun q a => score_question_enhanced sim q a w) questions answers).1.map
        QuestionResult.awarded_score).sum
    rw [gradeLoop_eq]
  · intro h
    subst h
    constructor
    · show pyRound (if (0:ℤ) > 0 then _ else 0) 2 = 0
      rw [if_neg (by norm_num)]
      exact hzero
    · show pyRound (if (0:ℤ) > 0 then _ else 0) 2 = 0
      rw [if_neg (by norm_num)]
      exact hzero
  · rw [assign_grade, if_pos (by norm_num)]
  · rw [assign_grade]
    norm_num
  · rw [assign_grade]
    norm_num

/-- Witness for C3 (amended) at a concrete empty paper with zero total
marks. -/
theorem c3_paper_aggregation_witness :
    ((grade_paper_basic (fun _ _ => 1) [] 0 []).total_score =
      ((grade_paper_basic (fun _ _ => 1) [] 0 []).question_results.map
        QuestionResult.awarded_score).sum) ∧
    ((grade_paper_enhanced (fun _ _ => 1) [] 0 [] none).total_score =
      ((grade_paper_enhanced (fun _ _ => 1) [] 0 [] none).question_results.map
        QuestionResult.awarded_score).sum) ∧
    ((grade_paper_basic (fun _ _ => 1) [] 0 []).percentage =
      pyRound (if (0:ℤ) > 0 then
        ((grade_paper_basic (fun _ _ => 1) [] 0 []).total_score : ℚ) /
          ((0:ℤ) : ℚ) * 100 else 0) 2) ∧
    ((grade_paper_basic (fun _ _ => 1) [] 0 []).grade =
      assign_grade (if (0:ℤ) > 0 then
        ((grade_paper_basic (fun _ _ => 1) [] 0 []).total_score : ℚ) /
          ((0:ℤ) : ℚ) * 100 else 0)) ∧
    ((grade_paper_enhanced (fun _ _ => 1) [] 0 [] none).percentage =
      pyRound (if (0:ℤ) > 0 then
        ((grade_paper_enhanced (fun _ _ => 1) [] 0 [] none).total_score : ℚ) /
          ((0:ℤ) : ℚ) * 100 else 0) 2) ∧
    ((grade_paper_enhanced (fun _ _ => 1) [] 0 [] none).grade =
      assign_grade (if (0:ℤ) > 0 then
        ((grade_paper_enhanced (fun _ _ => 1) [] 0 [] none).total_score : ℚ) /
          ((0:ℤ) : ℚ) * 100 else 0)) ∧
    ((0:ℤ) = 0 →
      (grade_paper_basic (fun _ _ => 1) [] 0 []).percentage = 0 ∧
      (grade_paper_enhanced (fun _ _ => 1) [] 0 [] none).percentage = 0) ∧
    (assign_grade (912/10) = "A+" ∧ assign_grade (449/10) = "F" ∧
      assign_grade 70 = "B") :=
  c3_paper_aggregation (fun _ _ => 1) [] 0 [] none

/-! ### Claim C9 -/

/-- The per-item outcome of the batch assessment loop. -/
def batchEntry (sim : String → String → ℚ) (item : BatchAnswerItem) :
    BatchAssessmentResult :=
  if pyStrip item.model_answer = "" ∨ pyStrip item.student_answer = "" then
    ⟨item.student_id, 0, 0, "Invalid answer: empty text provided"⟩
  else
    ⟨item.student_id,
      pyRound (compute_similarity sim item.model_answer item.student_answer) 3,
      map_similarity_to_score (compute_similarity sim item.model_answer item.student_answer)
        item.max_score,
      generate_feedback (compute_similarity sim item.model_answer item.student_answer)⟩

theorem batchFold_go (sim : String → String → ℚ) :
    ∀ (its : List BatchAnswerItem) (rs : List BatchAssessmentResult) (t : ℤ),
      its.foldl (batchStep sim) (rs, t) =
        (rs ++ its.map (batchEntry sim),
          t + ((its.map (batchEntry sim)).map BatchAssessmentResult.awarded_score).sum) := by
  intro its
  induction its with
  | nil => intro rs t; simp
  | cons item its ih =>
      intro rs t
      rw [List.foldl_cons]
      by_cases hb : pyStrip item.model_answer = "" ∨ pyStrip item.student_answer = ""
      · have hstep : batchStep sim (rs, t) item =
            (rs ++ [⟨item.student_id, 0, 0, "Invalid answer: empty text provided"⟩], t) := by
          simp only [batchStep]
          rw [if_pos hb]
        have hq : batchEntry sim item =
            ⟨item.student_id, 0, 0, "Invalid answer: empty text provided"⟩ := by
          simp only [batchEntry]
          rw [if_pos hb]
        rw [hstep, ih]
        simp [hq]
      · have hstep : batchStep sim (rs, t) item =
            (rs ++ [⟨item.student_id,
                pyRound (compute_similarity sim item.model_answer item.student_answer) 3,
                map_similarity_to_score
                  (compute_similarity sim item.model_answer item.student_answer) item.max_score,
                generate_feedback
                  (compute_similarity sim item.model_answer item.student_answer)⟩],
              t + map_similarity_to_score
                (compute_similarity sim item.model_answer item.student_answer) item.max_score) := by
          simp only [batchStep]
          rw [if_neg hb]
        have hq : batchEntry sim item =
            ⟨item.student_id,
              pyRound (compute_similarity sim item.model_answer item.student_answer) 3,
              map_similarity_to_score
                (compute_similarity sim item.model_answer item.student_answer) item.max_score,
              generate_feedback
                (compute_similarity sim item.model_answer item.student_answer)⟩ := by
          simp only [batchEntry]
          rw [if_neg hb]
        rw [hstep, ih]
        simp [hq, add_assoc]

/-- Claim C9 as stated requires the engine to reject a non-positive mark
allocation before any scoring; false on the code: the batch path silently
scores an item with `max_score = -5` and returns the awarded score `-5` with
a normal feedback string. -/
theorem c9_silent_scoring_counterexample :
    (process_batch_assessments (fun _ _ => 1) [⟨"s1", "cat", "cat", -5⟩]).1 =
      [⟨"s1", 1, -5,
        "Excellent answer. High semantic similarity to the model answer."⟩] := by
  have hmnb : ¬ (pyStrip (⟨"s1", "cat", "cat", -5⟩ : BatchAnswerItem).model_answer = "" ∨
      pyStrip (⟨"s1", "cat", "cat", -5⟩ : BatchAnswerItem).student_answer = "") := by
    decide
  have hsim : compute_similarity (fun _ _ => 1) ("cat") ("cat") = 1 := by
    simp [compute_similarity, clamp01]
  have h1 : pyRound 1 3 = 1 := by
    rw [pyRound, pyRoundInt]
    norm_num
  have h2 : map_similarity_to_score 1 (-5) = -5 := by
    rw [map_similarity_to_score, if_pos (by norm_num)]
  have h3 : generate_feedback 1 =
      "Excellent answer. High semantic similarity to the model answer." := by
    rw [generate_feedback, if_pos (by norm_num)]
  have hentry : batchEntry (fun _ _ => 1) ⟨"s1", "cat", "cat", -5⟩ =
      ⟨"s1", 1, -5,
        "Excellent answer. High semantic similarity to the model answer."⟩ := by
    rw [batchEntry, if_neg hmnb]
    show (⟨"s1", pyRound (compute_similarity (fun _ _ => 1) ("cat") ("cat")) 3,
      map_similarity_to_score (compute_similarity (fun _ _ => 1) ("cat") ("cat")) (-5),
      generate_feedback (compute_similarity (fun _ _ => 1) ("cat") ("cat"))⟩ :
        BatchAssessmentResult) = _
    rw [hsim, h1, h2, h3]
  show (([⟨"s1", "cat", "cat", -5⟩] : List BatchAnswerItem).foldl
      (batchStep (fun _ _ => 1)) ([], 0)).1 = _
  rw [batchFold_go]
  simp [hentry]

/-- Claim C9 (amended): `validate_assessment_inputs` does classify blank texts
and non-positive marks as invalid, but the processing paths do not enforce a
rejection: the batch loop replaces a blank-text item by a zero-score result
with the fixed message `Invalid answer: empty text provided` (and scores every
other item, with no check on the mark allocation). -/
theorem c9_validation_not_enforced (model_answer student_answer : String)
    (max_score : ℤ) (sim : String → String → ℚ)
    (answers : List BatchAnswerItem) (i : ℕ) (hi : i < answers.length)
    (hblank : pyStrip (answers.get ⟨i, hi⟩).model_answer = "" ∨
      pyStrip (answers.get ⟨i, hi⟩).student_answer = "") :
    ((validate_assessment_inputs model_answer student_answer max_score).1 = true ↔
      (pyStrip model_answer ≠ "" ∧ pyStrip student_answer ≠ "" ∧ 0 < max_score)) ∧
    (process_batch_assessments sim answers).1.get? i =
      some ⟨(answers.get ⟨i, hi⟩).student_id, 0, 0,
        "Invalid answer: empty text provided"⟩ := by
  constructor
  · rw [validate_assessment_inputs]
    split_ifs with h1 h2 h3
    · simp [h1]
    · simp [h2]
    · simp
      intro _ _
      omega
    · simp [h1, h2]
      omega
  · have hentry : batchEntry sim (answers.get ⟨i, hi⟩) =
        ⟨(answers.get ⟨i, hi⟩).student_id, 0, 0,
          "Invalid answer: empty text provided"⟩ := by
      rw [batchEntry, if_pos hblank]
    show ((answers.foldl (batchStep sim) ([], 0)).1).get? i = _
    rw [batchFold_go]
    simp only [List.nil_append]
    rw [List.get?_map, List.get?_eq_get hi]
    simp only [Option.map_some']
    exact congrArg some hentry

/-- Witness for C9 at a concrete batch holding one blank student item. -/
theorem c9_validation_not_enforced_witness :
    ((0 : ℕ) < ([⟨"sid", "", "x", 10⟩] : List BatchAnswerItem).length ∧
      (pyStrip (([⟨"sid", "", "x", 10⟩] : List BatchAnswerItem).get
          ⟨0, by decide⟩).model_answer = "" ∨
        pyStrip (([⟨"sid", "", "x", 10⟩] : List BatchAnswerItem).get
          ⟨0, by decide⟩).student_answer = "")) ∧
    (((validate_assessment_inputs ("m") ("s") 5).1 = true ↔
      (pyStrip ("m") ≠ "" ∧ pyStrip ("s") ≠ "" ∧ (0:ℤ) < 5)) ∧
    (process_batch_assessments (fun _ _ => 1) [⟨"sid", "", "x", 10⟩]).1.get? 0 =
      some ⟨(([⟨"sid", "", "x", 10⟩] : List BatchAnswerItem).get
          ⟨0, by decide⟩).student_id, 0, 0,
        "Invalid answer: empty text provided"⟩) :=
  ⟨⟨by decide, by decide⟩,
    c9_validation_not_enforced ("m") ("s") 5 (fun _ _ => 1)
      [⟨"sid", "", "x", 10⟩] 0 (by decide) (by decide)⟩

/-! ### Claim C8 -/

/-- Claim C8: a question whose submitted answer is absent or strips to blank
is recorded, by both graders, as the fixed unanswered result — awarded score
`0`, similarity `0.0`, feedback the fixed message — which does not depend on
the similarity oracle (no scorer or encoder is invoked). -/
theorem c8_unanswered_question (sim : String → String → ℚ)
    (questions : List QuestionSpec) (total_marks : ℤ)
    (answers : List (ℤ × String)) (w : Option RubricWeights)
    (i : ℕ) (hi : i < questions.length)
    (hblank : pyStrip (pyDictGet answers (questions.get ⟨i, hi⟩).question_number ("")) = "") :
    (grade_paper_basic sim questions total_marks answers).question_results.get? i =
      some (create_unanswered_result (questions.get ⟨i, hi⟩)) ∧
    (grade_paper_enhanced sim questions total_marks answers w).question_results.get? i =
      some (create_unanswered_result (questions.get ⟨i, hi⟩)) ∧
    (create_unanswered_result (questions.get ⟨i, hi⟩)).awarded_score = 0 ∧
    (create_unanswered_result (questions.get ⟨i, hi⟩)).similarity_score = some 0 ∧
    (create_unanswered_result (questions.get ⟨i, hi⟩)).feedback =
      .text ("Question not attempted.") := by
  have hstep : ∀ scoreQ : QuestionSpec → String → QuestionResult,
      stepQR scoreQ answers (questions.get ⟨i, hi⟩) =
        create_unanswered_result (questions.get ⟨i, hi⟩) := by
    intro scoreQ
    simp only [stepQR]
    rw [if_pos hblank]
  have hget : ∀ scoreQ : QuestionSpec → String → QuestionResult,
      (questions.map (stepQR scoreQ answers)).get? i =
        some (create_unanswered_result (questions.get ⟨i, hi⟩)) := by
    intro scoreQ
    rw [List.get?_map, List.get?_eq_get hi]
    simp only [Option.map_some']
    exact congrArg some (hstep scoreQ)
  refine ⟨?_, ?_, rfl, rfl, rfl⟩
  · show (gradeLoop (score_question_basic sim) questions answers).1.get? i = _
    rw [gradeLoop_eq]
    exact hget _
  · show (gradeLoop (fun q a => score_question_enhanced sim q a w) questions answers).1.get? i = _
    rw [gradeLoop_eq]
    exact hget _

/-- Witness for C8 at a concrete paper with one unanswered question. -/
theorem c8_unanswered_question_witness :
    ((0 : ℕ) < ([⟨1, "Q", "M", 10⟩] : List QuestionSpec).length ∧
      pyStrip (pyDictGet [] (1 : ℤ) ("")) = "") ∧
    ((grade_paper_basic (fun _ _ => 1) [⟨1, "Q", "M", 10⟩] 10 []).question_results.get? 0 =
      some (create_unanswered_result ⟨1, "Q", "M", 10⟩) ∧
    (grade_paper_enhanced (fun _ _ => 1) [⟨1, "Q", "M", 10⟩] 10 [] none).question_results.get? 0 =
      some (create_unanswered_result ⟨1, "Q", "M", 10⟩) ∧
    (create_unanswered_result (⟨1, "Q", "M", 10⟩ : QuestionSpec)).awarded_score = 0 ∧
    (create_unanswered_result (⟨1, "Q", "M", 10⟩ : QuestionSpec)).similarity_score = some 0 ∧
    (create_unanswered_result (⟨1, "Q", "M", 10⟩ : QuestionSpec)).feedback =
      .text ("Question not attempted.")) :=
  ⟨⟨by decide, by decide⟩,
    c8_unanswered_question (fun _ _ => 1) [⟨1, "Q", "M", 10⟩] 10 [] none 0
      (by decide) (by decide)⟩

/-! ### Claim C10 -/

/-- Claim C10: for every student answer the clarity sub-score is at least
`0.35` (sentence score floored at `0.5`, punctuation score at least `0.5`),
so under the default weights every scored answer receives a weighted total of
at least `0.0525`. -/
theorem c10_clarity_floor (sim : String → String → ℚ)
    (model_answer student_answer : String) :
    7/20 ≤ (score_clarity student_answer).score ∧
    21/400 ≤ (score_with_rubric sim model_answer student_answer none).total_score := by
  have hclar := clarity_score_bounds student_answer
  have hacc := accuracy_score_bounds sim model_answer student_answer
  have hcomp := completeness_score_bounds sim model_answer student_answer
  refine ⟨hclar.1, ?_⟩
  simp only [rubric_total_eq, Option.getD_none, defaultWeights]
  nlinarith [hclar.1, hacc.1, hcomp.1]

end EvalAI
